import Mathlib

/-!
Verification of `src/tracecat/actions/integrations/siem/__init__.py`.

The file under verification is a package initializer:

```
from .datadog import list_datadog_alerts
from .elastic import list_elastic_alerts
from .acumen_elastic import acumen_list_elastic_alerts
__all__ = [
    "list_datadog_alerts",
    "list_elastic_alerts",
    "acumen_list_elastic_alerts"
]
```

We embed the relevant fragment of Python module semantics: a module
namespace is an ordered association list of names to values, a
`from M import n` statement resolves `n` in the sibling module `M`, binding it
under the same name (raising `ImportError`, modelled as `none`, when the
module or the attribute is missing), and an assignment binds a name to a
value. The package initializer is the literal list of its four statements,
executed in order on an initially empty namespace.
-/

/-- Python runtime values, as far as this package initializer can observe
them: an opaque callable object (identified by a tag so that distinct
objects are distinguishable) or a list of strings (the `__all__` value). -/
inductive PyValue where
  | callable (tag : String)
  | strList (elems : List String)
  deriving DecidableEq, Repr

/-- Whether a value is a callable object. -/
def PyValue.isCallable : PyValue → Bool
  | .callable _ => true
  | .strList _ => false

/-- A module namespace: ordered bindings of names to values. -/
def Namespace := List (String × PyValue)

/-- Resolve a name in a namespace. -/
def lookupName (ns : Namespace) (n : String) : Option PyValue :=
  (List.find? (fun p => p.1 == n) ns).map Prod.snd

/-- Bind a name in a namespace (each name in the file is bound once, so
appending preserves binding order). -/
def bindName (ns : Namespace) (n : String) (v : PyValue) : Namespace :=
  List.append ns [(n, v)]

/-- The statements occurring in the package initializer: a
`from .module import name` re-export, or an assignment of a value to a
name. -/
inductive Stmt where
  | fromImport (module : String) (name : String)
  | assign (name : String) (value : PyValue)
  deriving DecidableEq, Repr

/-- The environment of sibling modules visible to the package: a map from
module name to that module's namespace. -/
def ModuleEnv := List (String × Namespace)

/-- Resolve a sibling module in the environment. -/
def lookupModule (env : ModuleEnv) (m : String) : Option Namespace :=
  (List.find? (fun p => p.1 == m) env).map Prod.snd

/-- Execute one statement of the initializer on the package namespace.
`none` models an `ImportError`: the sibling module is missing, or it does
not bind the requested name. -/
def execStmt (env : ModuleEnv) (ns : Namespace) : Stmt → Option Namespace
  | .fromImport m n =>
      match lookupModule env m with
      | none => none
      | some mns =>
          match lookupName mns n with
          | none => none
          | some v => some (bindName ns n v)
  | .assign n v => some (bindName ns n v)

/-- Execute a list of statements in order, stopping at the first error. -/
def runStmts (env : ModuleEnv) : Namespace → List Stmt → Option Namespace
  | ns, [] => some ns
  | ns, s :: rest =>
      match execStmt env ns s with
      | none => none
      | some ns2 => runStmts env ns2 rest

/-- The literal `__all__` list of the source file, in source order. -/
def dunderAll : List String :=
  ["list_datadog_alerts", "list_elastic_alerts", "acumen_list_elastic_alerts"]

/-- The four statements of
`src/tracecat/actions/integrations/siem/__init__.py`, in source order. -/
def siemInitStmts : List Stmt :=
  [Stmt.fromImport "datadog" "list_datadog_alerts",
   Stmt.fromImport "elastic" "list_elastic_alerts",
   Stmt.fromImport "acumen_elastic" "acumen_list_elastic_alerts",
   Stmt.assign "__all__" (PyValue.strList dunderAll)]

/-- Importing the package: run its initializer statements on an empty
namespace, given the environment of sibling modules. -/
def runSiemInit (env : ModuleEnv) : Option Namespace :=
  runStmts env [] siemInitStmts

/-- The names bound by `from package import *`, following Python: when the
module defines `__all__` as a list of strings, exactly those names are
bound; otherwise every name not starting with an underscore. -/
def starImportNames (ns : Namespace) : List String :=
  match lookupName ns "__all__" with
  | some (PyValue.strList l) => l
  | _ => (ns.map Prod.fst).filter (fun n => !(n.startsWith "_"))

/-- The names bound by the `from ... import ...` statements of a statement
list, in order. -/
def importedNames : List Stmt → List String
  | [] => []
  | Stmt.fromImport _ n :: rest => n :: importedNames rest
  | Stmt.assign _ _ :: rest => importedNames rest

/-- Whether a statement is a from-import whose resolution fails in the
given environment. -/
def importFails (env : ModuleEnv) : Stmt → Bool
  | .fromImport m n =>
      match lookupModule env m with
      | none => true
      | some mns => (lookupName mns n).isNone
  | .assign _ _ => false

/-- Modelled from the spec: the sibling module `datadog` is not part of
the provided source; per the spec it defines the callable
`list_datadog_alerts`. -/
def datadogModule : Namespace :=
  [("list_datadog_alerts", PyValue.callable "datadog.list_datadog_alerts")]

/-- Modelled from the spec: the sibling module `elastic` is not part of
the provided source; per the spec it defines the callable
`list_elastic_alerts`. -/
def elasticModule : Namespace :=
  [("list_elastic_alerts", PyValue.callable "elastic.list_elastic_alerts")]

/-- Modelled from the spec: the sibling module `acumen_elastic` is not
part of the provided source; per the spec it defines the callable
`acumen_list_elastic_alerts`. -/
def acumenElasticModule : Namespace :=
  [("acumen_list_elastic_alerts",
    PyValue.callable "acumen_elastic.acumen_list_elastic_alerts")]

/-- Modelled from the spec: the environment of the three sibling modules
named by the initializer's import statements. -/
def siblingEnv : ModuleEnv :=
  [("datadog", datadogModule),
   ("elastic", elasticModule),
   ("acumen_elastic", acumenElasticModule)]

/-- The package namespace produced by a successful import under the
spec-modelled sibling environment. -/
def siemNamespace : Namespace :=
  [("list_datadog_alerts", PyValue.callable "datadog.list_datadog_alerts"),
   ("list_elastic_alerts", PyValue.callable "elastic.list_elastic_alerts"),
   ("acumen_list_elastic_alerts",
    PyValue.callable "acumen_elastic.acumen_list_elastic_alerts"),
   ("__all__", PyValue.strList dunderAll)]

/-! ### Evaluation lemmas -/

/-- Running the initializer either succeeds, producing exactly the three
re-exported bindings followed by `__all__`, or fails because one of its
from-import statements does not resolve in the sibling environment. -/
theorem runSiemInit_cases (env : ModuleEnv) :
    (∃ v1 v2 v3, runSiemInit env =
        some [("list_datadog_alerts", v1), ("list_elastic_alerts", v2),
              ("acumen_list_elastic_alerts", v3),
              ("__all__", PyValue.strList dunderAll)]) ∨
    (runSiemInit env = none ∧ siemInitStmts.any (importFails env) = true) := by
  cases hd : lookupModule env "datadog" with
  | none =>
      right
      refine ⟨?_, ?_⟩
      · simp [runSiemInit, runStmts, siemInitStmts, execStmt, hd]
      · simp [siemInitStmts, importFails, hd]
  | some dns =>
    cases h1 : lookupName dns "list_datadog_alerts" with
    | none =>
        right
        refine ⟨?_, ?_⟩
        · simp [runSiemInit, runStmts, siemInitStmts, execStmt, hd, h1]
        · simp [siemInitStmts, importFails, hd, h1]
    | some v1 =>
      cases he : lookupModule env "elastic" with
      | none =>
          right
          refine ⟨?_, ?_⟩
          · simp [runSiemInit, runStmts, siemInitStmts, execStmt, hd, h1, he]
          · simp [siemInitStmts, importFails, he]
      | some ens =>
        cases h2 : lookupName ens "list_elastic_alerts" with
        | none =>
            right
            refine ⟨?_, ?_⟩
            · simp [runSiemInit, runStmts, siemInitStmts, execStmt, hd, h1, he, h2]
            · simp [siemInitStmts, importFails, he, h2]
        | some v2 =>
          cases ha : lookupModule env "acumen_elastic" with
          | none =>
              right
              refine ⟨?_, ?_⟩
              · simp [runSiemInit, runStmts, siemInitStmts, execStmt, hd, h1, he, h2, ha]
              · simp [siemInitStmts, importFails, ha]
          | some ans =>
            cases h3 : lookupName ans "acumen_list_elastic_alerts" with
            | none =>
                right
                refine ⟨?_, ?_⟩
                · simp [runSiemInit, runStmts, siemInitStmts, execStmt, hd, h1, he, h2, ha, h3]
                · simp [siemInitStmts, importFails, ha, h3]
            | some v3 =>
                left
                refine ⟨v1, v2, v3, ?_⟩
                simp [runSiemInit, runStmts, siemInitStmts, execStmt, hd, h1, he, h2, ha, h3,
                  bindName]

/-- A successful import yields exactly the three re-exported bindings,
in source order, followed by the `__all__` binding. -/
theorem runSiemInit_shape (env : ModuleEnv) (ns : Namespace)
    (h : runSiemInit env = some ns) :
    ∃ v1 v2 v3, ns =
      [("list_datadog_alerts", v1), ("list_elastic_alerts", v2),
       ("acumen_list_elastic_alerts", v3),
       ("__all__", PyValue.strList dunderAll)] := by
  rcases runSiemInit_cases env with ⟨v1, v2, v3, heq⟩ | ⟨hnone, _⟩
  · rw [heq] at h
    exact ⟨v1, v2, v3, (Option.some_inj.mp h).symm⟩
  · rw [hnone] at h
    cases h

/-! ### Claims -/

/-- C1: the set of names in the package's export list `__all__` equals
exactly the three-element set containing `list_datadog_alerts`,
`list_elastic_alerts` and `acumen_list_elastic_alerts`: each of the three
is in the list, and every member of the list is one of the three. -/
theorem C1_export_set (s : String) :
    s ∈ dunderAll ↔
      s = "list_datadog_alerts" ∨ s = "list_elastic_alerts" ∨
      s = "acumen_list_elastic_alerts" := by
  simp [dunderAll]

/-- C2: the package re-exports each function under its original name and
without wrapping: whenever the sibling modules `datadog`, `elastic` and
`acumen_elastic` bind the three names to values `v1`, `v2`, `v3`, the
package import succeeds and binds each name to exactly that same value,
adding only the `__all__` binding of its own. -/
theorem C2_reexport (env : ModuleEnv) (dns ens ans : Namespace)
    (v1 v2 v3 : PyValue)
    (hd : lookupModule env "datadog" = some dns)
    (h1 : lookupName dns "list_datadog_alerts" = some v1)
    (he : lookupModule env "elastic" = some ens)
    (h2 : lookupName ens "list_elastic_alerts" = some v2)
    (ha : lookupModule env "acumen_elastic" = some ans)
    (h3 : lookupName ans "acumen_list_elastic_alerts" = some v3) :
    runSiemInit env =
      some [("list_datadog_alerts", v1), ("list_elastic_alerts", v2),
            ("acumen_list_elastic_alerts", v3),
            ("__all__", PyValue.strList dunderAll)] := by
  simp [runSiemInit, runStmts, siemInitStmts, execStmt, hd, h1, he, h2, ha, h3, bindName]

/-- Witness for C2 at the spec-modelled sibling environment. -/
theorem C2_reexport_witness : runSiemInit siblingEnv = some siemNamespace :=
  C2_reexport siblingEnv datadogModule elasticModule acumenElasticModule
    (PyValue.callable "datadog.list_datadog_alerts")
    (PyValue.callable "elastic.list_elastic_alerts")
    (PyValue.callable "acumen_elastic.acumen_list_elastic_alerts")
    rfl rfl rfl rfl rfl rfl

/-- C3: no name outside the three-element set is exposed: any name
different from the three is absent from `__all__`, and after any
successful import a star-import of the package does not bind it. -/
theorem C3_no_extra_exports (s : String) (env : ModuleEnv) (ns : Namespace)
    (hrun : runSiemInit env = some ns)
    (hne1 : s ≠ "list_datadog_alerts")
    (hne2 : s ≠ "list_elastic_alerts")
    (hne3 : s ≠ "acumen_list_elastic_alerts") :
    s ∉ dunderAll ∧ s ∉ starImportNames ns := by
  have hmem : s ∉ dunderAll := by
    simp [dunderAll, hne1, hne2, hne3]
  refine ⟨hmem, ?_⟩
  obtain ⟨v1, v2, v3, rfl⟩ := runSiemInit_shape env ns hrun
  simpa [starImportNames, lookupName, List.find?] using hmem

/-- Witness for C3: the name `extra` is not exported and not bound by a
star-import of the package under the spec-modelled environment. -/
theorem C3_no_extra_exports_witness :
    "extra" ∉ dunderAll ∧ "extra" ∉ starImportNames siemNamespace :=
  C3_no_extra_exports "extra" siblingEnv siemNamespace rfl
    (by decide) (by decide) (by decide)

/-- C4: under the spec-modelled sibling modules, importing the package
succeeds and each of the three exported names resolves to a non-null
callable object. -/
theorem C4_import_resolves :
    runSiemInit siblingEnv = some siemNamespace ∧
    dunderAll.all (fun n =>
      match lookupName siemNamespace n with
      | some v => v.isCallable
      | none => false) = true := by
  refine ⟨rfl, ?_⟩
  rfl

/-- C5: importing the package has no effect beyond binding the three
re-exported names and the export list: after any successful import the
namespace binds exactly the names of `__all__` followed by `__all__`
itself, and every statement of the initializer is a from-import or the
single `__all__` assignment (no function, class, or other logic). -/
theorem C5_no_side_effects (env : ModuleEnv) (ns : Namespace)
    (hrun : runSiemInit env = some ns) :
    ns.map Prod.fst = dunderAll ++ ["__all__"] ∧
    siemInitStmts.all (fun s =>
      match s with
      | Stmt.fromImport _ _ => true
      | Stmt.assign n _ => n == "__all__") = true := by
  obtain ⟨v1, v2, v3, rfl⟩ := runSiemInit_shape env ns hrun
  exact ⟨rfl, rfl⟩

/-- Witness for C5 at the spec-modelled sibling environment. -/
theorem C5_no_side_effects_witness :
    siemNamespace.map Prod.fst = dunderAll ++ ["__all__"] ∧
    siemInitStmts.all (fun s =>
      match s with
      | Stmt.fromImport _ _ => true
      | Stmt.assign n _ => n == "__all__") = true :=
  C5_no_side_effects siblingEnv siemNamespace rfl

/-- C6: the aggregation point raises no errors of its own: whenever the
package import fails, some from-import statement of the
initializer failed to resolve in a sibling module, so the error
originates from the sibling modules, not from the initializer. -/
theorem C6_errors_from_siblings (env : ModuleEnv)
    (h : runSiemInit env = none) :
    siemInitStmts.any (importFails env) = true := by
  rcases runSiemInit_cases env with ⟨v1, v2, v3, heq⟩ | ⟨_, hany⟩
  · rw [heq] at h
    cases h
  · exact hany

/-- Witness for C6: with no sibling modules at all the import fails, and
indeed a from-import statement is the failing one. -/
theorem C6_errors_from_siblings_witness :
    siemInitStmts.any (importFails []) = true :=
  C6_errors_from_siblings [] rfl

/-- C7: the export list `__all__` has exactly three entries and they are
pairwise distinct (its entries are strings by construction of the
embedding, mirroring the string literals of the source). -/
theorem C7_three_distinct : dunderAll.length = 3 ∧ dunderAll.Nodup := by
  constructor
  · rfl
  · decide

/-- C8: the order of the entries of `__all__` matches the order of the
from-import statements of the initializer: `list_datadog_alerts` first,
`list_elastic_alerts` second, `acumen_list_elastic_alerts` third. -/
theorem C8_order_matches_imports :
    dunderAll = importedNames siemInitStmts ∧
    importedNames siemInitStmts =
      ["list_datadog_alerts", "list_elastic_alerts",
       "acumen_list_elastic_alerts"] :=
  ⟨rfl, rfl⟩

/-- C9: every name listed in `__all__` is bound by one of the preceding
from-import statements, and after any successful import every name bound by a
star-import of the package resolves in the package namespace, so a
star-import can never fail with a missing attribute. -/
theorem C9_star_import_safe (env : ModuleEnv) (ns : Namespace)
    (hrun : runSiemInit env = some ns) :
    dunderAll.all (fun n => (importedNames siemInitStmts).contains n) = true ∧
    (starImportNames ns).all (fun n => (lookupName ns n).isSome) = true := by
  obtain ⟨v1, v2, v3, rfl⟩ := runSiemInit_shape env ns hrun
  exact ⟨rfl, rfl⟩

/-- Witness for C9 at the spec-modelled sibling environment. -/
theorem C9_star_import_safe_witness :
    dunderAll.all (fun n => (importedNames siemInitStmts).contains n) = true ∧
    (starImportNames siemNamespace).all
      (fun n => (lookupName siemNamespace n).isSome) = true :=
  C9_star_import_safe siblingEnv siemNamespace rfl
